import Mathlib

set_option maxRecDepth 10000

/-!
Verification of the TRISH backend (two Flask variants: `src/app.py` and
`src/TRISH-Backend/app.py`) against its natural-language specification.

The embedding is shallow: Python string operations are modelled as
structurally recursive functions on `List Char` (Python `str` is a sequence
of code points, so `String.toList` is the faithful carrier); the network
call made by `try_api_key` / `requests.post` is abstracted as an oracle
from the API key (resp. a `ProviderResult`) to the outcome the surrounding
code observes; JSON endpoint responses become Lean structures.
-/

/-- Python `str.strip()` whitespace set (ASCII part): space, tab, newline,
carriage return, vertical tab (11), form feed (12). -/
def isPyWs (c : Char) : Bool :=
  c = ' ' || c = '\t' || c = '\n' || c = '\r' || c = Char.ofNat 11 || c = Char.ofNat 12

/-- Python `s.strip()`: drop leading and trailing whitespace. -/
def pyStrip (s : String) : String :=
  String.mk (((s.toList.dropWhile isPyWs).reverse.dropWhile isPyWs).reverse)

/-- Character-list version of "is a prefix of": `listIsPre p l` iff `p` is a
prefix of `l`. -/
def listIsPre : List Char → List Char → Bool
  | [], _ => true
  | _ :: _, [] => false
  | a :: as, b :: bs => a = b && listIsPre as bs

/-- Python `s.startswith(pre)`. -/
def pyStartsWith (s pre : String) : Bool := listIsPre pre.toList s.toList

/-- Python `s[n:]` (drop first `n` characters). -/
def pyDrop (s : String) (n : Nat) : String := String.mk (s.toList.drop n)

/-- Helper for `pySplitNl`: split a character list at every newline.
Matches Python `str.split('\n')`: the empty string yields one empty field. -/
def pySplitLinesAux : List Char → List (List Char)
  | [] => [[]]
  | c :: rest =>
    if c = '\n' then [] :: pySplitLinesAux rest
    else
      match pySplitLinesAux rest with
      | [] => [[c]]
      | w :: ws => (c :: w) :: ws

/-- Python `text.split('\n')`. -/
def pySplitNl (s : String) : List String := (pySplitLinesAux s.toList).map String.mk

/-- Helper for `pyContains`: does `needle` occur as a contiguous sublist of
`hay`? -/
def containsSubAux (hay needle : List Char) : Bool :=
  match hay with
  | [] => needle.isEmpty
  | _ :: t => listIsPre needle hay || containsSubAux t needle

/-- Python `sub in hay` (substring containment). -/
def pyContains (hay sub : String) : Bool := containsSubAux hay.toList sub.toList

/-- A chat message as received in the request JSON. -/
structure Message where
  role : String
  content : String
deriving DecidableEq

namespace TrishBackend

/-!
Embedding of `src/TRISH-Backend/app.py`.
-/

/-- `MODEL_NAME` constant. -/
def MODEL_NAME : String := "meta-llama/llama-3.3-8b-instruct:free"

/-- `YOUR_SITE_NAME` constant. -/
def YOUR_SITE_NAME : String := "TRISH Discussion Platform"

/-!
### Conclusion parser (`parse_conclusion`)

`sections` is a Python `dict` built by insertion: it is modelled as an
association list with unique keys.  Assigning to an existing key replaces
its value in place (Python dicts keep the original insertion position);
assigning a new key appends it at the end.
-/

/-- Python `d[k] = v` on an insertion-ordered dict. -/
def dictSet : List (String × List String) → String → List String → List (String × List String)
  | [], k, v => [(k, v)]
  | p :: d, k, v => if p.1 = k then (k, v) :: d else p :: dictSet d k v

/-- Python `d[k].append(x)` on an insertion-ordered dict. -/
def dictAppend : List (String × List String) → String → String → List (String × List String)
  | [], _, _ => []
  | p :: d, k, x => if p.1 = k then (p.1, p.2 ++ [x]) :: d else p :: dictAppend d k x

/-- Python `d.get(k)`. -/
def dictGet : List (String × List String) → String → Option (List String)
  | [], _ => none
  | p :: d, k => if p.1 = k then some p.2 else dictGet d k

/-- Python `list(d.keys())`. -/
def dictKeys (d : List (String × List String)) : List String := d.map Prod.fst

/-- Does the (stripped) line open a section, i.e. `line.strip().startswith('## ')`? -/
def isHeaderLine (line : String) : Bool := pyStartsWith (pyStrip line) "## "

/-- Section name opened by a header line: `line.strip()[3:].strip()`. -/
def headerNameOf (line : String) : String := pyStrip (pyDrop (pyStrip line) 3)

/-- Does the (stripped) line carry a bullet, i.e. `line.strip().startswith('- ')`? -/
def isBulletLine (line : String) : Bool := pyStartsWith (pyStrip line) "- "

/-- Bullet text of a bullet line: `line.strip()[2:].strip()`. -/
def bulletOf (line : String) : String := pyStrip (pyDrop (pyStrip line) 2)

/-- State of the `parse_conclusion` loop: the dict built so far and the
`current_section` variable (`none` models Python `None`). -/
structure ParseState where
  sections : List (String × List String)
  current : Option String
deriving DecidableEq

/-- One iteration of the `for line in text.split('\n')` loop of
`parse_conclusion`.  The line is stripped, then: a `'## '` prefix opens a
section; otherwise a `'- '` prefix appends a bullet provided
`current_section` is truthy (not `None` and not the empty string). -/
def parseStep (st : ParseState) (line : String) : ParseState :=
  if isHeaderLine line then
    { sections := dictSet st.sections (headerNameOf line) []
      current := some (headerNameOf line) }
  else
    match st.current with
    | some cur =>
      if cur ≠ "" ∧ isBulletLine line then
        { sections := dictAppend st.sections cur (bulletOf line), current := some cur }
      else st
    | none => st

/-- The `parse_conclusion` loop over a list of lines. -/
def parseLines (ls : List String) : ParseState :=
  ls.foldl parseStep { sections := [], current := none }

/-- `parse_conclusion(text)` from `src/TRISH-Backend/app.py`. -/
def parse_conclusion (text : String) : List (String × List String) :=
  (parseLines (pySplitNl text)).sections

/-!
### Credential pool and completion gateway

`API_KEYS` is `[os.getenv(PRIMARY), os.getenv(SECONDARY)]`; `os.getenv`
returns `None` when the variable is unset, so a pool entry is an
`Option String` (an entry can be `some ""` when the variable is set to the
empty string).  The outcome of one `try_api_key` call is abstracted as an
oracle `String → Option String`: `some content` when the HTTP request
succeeds and the reply parses, `none` when a `RequestException` is caught
and `try_api_key` returns `None`.
-/

/-- Python truthiness of `try_api_key`'s result (`if response:`):
`None` and the empty string are falsy. -/
def pyTruthy : Option String → Bool
  | none => false
  | some s => s ≠ ""

/-- The credentials of the pool that the `get_trish_response` loop actually
uses: entries that are set and non-empty (`if not api_key: continue`). -/
def usableOf (keys : List (Option String)) : List String :=
  keys.filterMap (fun k =>
    match k with
    | none => none
    | some s => if s = "" then none else some s)

/-- `get_trish_response` from `src/TRISH-Backend/app.py`, instrumented with
the list of keys for which `try_api_key` was actually invoked, in call
order.  Falsy pool entries are skipped without an attempt; an attempt whose
result is truthy (`if response:`) ends the loop and is returned; the loop
falling through returns `None`. -/
def get_trish_response_trace (keys : List (Option String))
    (oracle : String → Option String) : List String × Option String :=
  match keys with
  | [] => ([], none)
  | none :: rest => get_trish_response_trace rest oracle
  | some k :: rest =>
    if k = "" then get_trish_response_trace rest oracle
    else
      match oracle k with
      | some content =>
        if content = "" then
          let r := get_trish_response_trace rest oracle
          (k :: r.1, r.2)
        else ([k], some content)
      | none =>
        let r := get_trish_response_trace rest oracle
        (k :: r.1, r.2)

/-- `get_trish_response`: the value the caller sees. -/
def get_trish_response (keys : List (Option String))
    (oracle : String → Option String) : Option String :=
  (get_trish_response_trace keys oracle).2

/-- Generation parameters of the payload built by `try_api_key`
(`"temperature": 0.7`).  `try_api_key` is the single request path used by
both the `/api/chat` and `/api/generate-conclusion` endpoints of this
variant, with no mode-dependent branching. -/
def try_api_key_temperature : ℚ := 7/10

/-- `"max_tokens": 1000` in the payload built by `try_api_key`, again used
for both endpoints. -/
def try_api_key_max_tokens : ℕ := 1000

/-- The system prompt composed by the `chat` endpoint
(f-string at lines 96-104): the topic is interpolated verbatim. -/
def chat_system_prompt (discussion_topic : String) : String :=
  "You are TRISH, an AI discussion facilitator. Current topic: " ++ discussion_topic ++
  "\n    Your role:\n    - Ask probing questions to deepen understanding\n    - Identify common ground between participants\n    - Challenge assumptions constructively\n    - Ensure balanced participation\n    - Keep discussion focused and productive\n    \n    Respond naturally using markdown when helpful. Be concise and engaging."

/-- The system prompt composed by the `generate_conclusion` endpoint
(f-string at lines 121-138): the topic is interpolated verbatim. -/
def conclusion_system_prompt (discussion_topic : String) : String :=
  "Generate comprehensive conclusion for: " ++ discussion_topic ++
  "\n    Required format:\n    \n    ## Key Points Summary\n    - 3-5 main discussion outcomes\n    - Focus on concrete results\n    \n    ## Major Insights\n    - Notable observations\n    - Unexpected findings\n    - Participant breakthroughs\n    \n    ## Action Items\n    - Clear next steps with owners\n    - Specific deadlines\n    - Success metrics\n    \n    Use markdown formatting and maintain professional tone."

/-- HTTP response of the `/api/chat` endpoint. -/
structure ChatHttp where
  status : ℕ
  response : Option String
  error : Option String
  system_prompt : String
deriving DecidableEq

/-- The `chat` endpoint of `src/TRISH-Backend/app.py`: build the system
prompt, run the gateway, answer `200 {response}` when the result is truthy
and `503 {error}` otherwise. -/
def chat (_messages : List Message) (discussion_topic : String)
    (keys : List (Option String)) (oracle : String → Option String) : ChatHttp :=
  let sp := chat_system_prompt discussion_topic
  let response := get_trish_response keys oracle
  if pyTruthy response then
    { status := 200, response := response, error := none, system_prompt := sp }
  else
    { status := 503, response := none
      error := some "All AI services are currently unavailable", system_prompt := sp }

/-- HTTP response of the `/api/generate-conclusion` endpoint.
`provider_called` records whether the handler reached the gateway call
(this variant always does: there is no transcript-length gate). -/
structure ConcHttp where
  status : ℕ
  conclusion : Option String
  structured : Option (List (String × List String))
  error : Option String
  system_prompt : String
  provider_called : Bool
deriving DecidableEq

/-- The `generate_conclusion` endpoint of `src/TRISH-Backend/app.py`: no
check on the transcript length, gateway always invoked, `200` with the text
and its `parse_conclusion` on truthy result, `503` otherwise. -/
def generate_conclusion (_messages : List Message) (discussion_topic : String)
    (keys : List (Option String)) (oracle : String → Option String) : ConcHttp :=
  let sp := conclusion_system_prompt discussion_topic
  let response := get_trish_response keys oracle
  if pyTruthy response then
    { status := 200, conclusion := response
      structured := response.map parse_conclusion, error := none
      system_prompt := sp, provider_called := true }
  else
    { status := 503, conclusion := none, structured := none
      error := some "All conclusion services are unavailable"
      system_prompt := sp, provider_called := true }

/-- Body of the `/api/health` endpoint. -/
structure HealthHttp where
  status : String
  model : String
  available_keys : ℕ
  site : String
deriving DecidableEq

/-- `sum(1 for key in API_KEYS if key is not None)`. -/
def available_keys (keys : List (Option String)) : ℕ :=
  (keys.filterMap (fun k =>
    match k with
    | some _ => some 1
    | none => none)).sum

/-- The `health_check` endpoint. -/
def health_check (keys : List (Option String)) : HealthHttp :=
  { status := "healthy", model := MODEL_NAME
    available_keys := available_keys keys, site := YOUR_SITE_NAME }

end TrishBackend

namespace SrcApp

/-!
Embedding of `src/app.py`.
-/

/-- `markupsafe.escape` on one character: the five HTML-significant
characters become entities, every other character is kept. -/
def escapeCharL (c : Char) : List Char :=
  if c = '&' then "&amp;".toList
  else if c = '<' then "&lt;".toList
  else if c = '>' then "&gt;".toList
  else if c = '"' then "&#34;".toList
  else if c = Char.ofNat 39 then "&#39;".toList
  else [c]

/-- `markupsafe.escape` over a character list. -/
def escapeList : List Char → List Char
  | [] => []
  | c :: cs => escapeCharL c ++ escapeList cs

/-- `markupsafe.escape(s)`. -/
def escape (s : String) : String := String.mk (escapeList s.toList)

/-- `sanitize_input(text)` from `src/app.py`: `escape(text.strip())`. -/
def sanitize_input (text : String) : String := escape (pyStrip text)

/-- `TEMPERATURE = float(os.getenv("TEMPERATURE", "0.7"))` under the
default environment. -/
def TEMPERATURE_default : ℚ := 7/10

/-- `MAX_TOKENS = int(os.getenv("MAX_TOKENS", "800"))` under the default
environment. -/
def MAX_TOKENS_default : ℕ := 800

/-- `CONCLUSION_PROMPT.format(discussion_title=...)`: the constant template
of `src/app.py` lines 51-79 with the title interpolated at
`{discussion_title}`. -/
def conclusion_prompt (discussion_title : String) : String :=
  "Generate comprehensive conclusion with EXACT structure:\n\n## Key Points Summary\n- [3-5 main points as bullet points]\n\n## Major Insights\n- [Notable observations from discussion]\n\n## Agreements Reached\n- [Clear consensus items]\n\n## Action Plan\n- [Concrete next steps with owners/dates]\n\nEXAMPLE:\n## Key Points Summary\n- Team aligned on Q3 milestones\n- Budget concerns about cloud costs\n- UX design approval pending\n\nDiscussion: "
  ++ discussion_title ++
  "\n\nINSTRUCTIONS:\n1. Use exactly 4 sections\n2. Minimum 3 bullets per section\n3. Follow example format\n4. Be specific\n5. Maintain professional tone\n"

/-- The facilitation-mode f-string of `get_ai_response` (lines 111-117)
with the sanitized context interpolated. -/
def facilitation_prompt (ctx : String) : String :=
  "You are TRISH, an AI discussion facilitator. Current discussion: " ++ ctx ++
  ".\n            Your role:\n            - Ask probing questions\n            - Identify common ground\n            - Challenge assumptions\n            - Manage timekeeping\n            - Ensure participation balance"

/-- Outcome of the `requests.post` call inside `get_ai_response`, as the
surrounding code distinguishes it:
`httpError` = `raise_for_status` throws (`HTTPError` handler);
`keyError` = the payload walk `["choices"][0]["message"]` raises
`KeyError`/`IndexError`;
`noChoices` = `response_data.get("choices")` is falsy (a `ValueError`,
caught by the generic handler);
`content s` = a content string was extracted
(`.get("content", "")` supplies `""` when the key is absent). -/
inductive ProviderResult where
  | httpError
  | keyError
  | noChoices
  | content (s : String)
deriving DecidableEq

/-- Everything `get_ai_response` determines for one call: the system prompt
it interpolates, the generation parameters of its payload, and the string it
returns to its caller.  Note that every failure handler returns a non-empty
fallback sentence as an ordinary string. -/
structure AiCall where
  final_prompt : String
  temperature : ℚ
  max_tokens : ℕ
  content : String
deriving DecidableEq

/-- `get_ai_response(messages, discussion_context, system_prompt)` from
`src/app.py`.  `system_prompt` is modelled by whether it was passed
(`generate_conclusion` passes `CONCLUSION_PROMPT`, `chat` passes nothing). -/
def get_ai_response (system_prompt : Bool) (discussion_context : String)
    (TEMPERATURE : ℚ) (MAX_TOKENS : ℕ) (provider : ProviderResult) : AiCall :=
  let sanitized_context := sanitize_input discussion_context
  let final_prompt :=
    if system_prompt then conclusion_prompt sanitized_context
    else facilitation_prompt sanitized_context
  let temp : ℚ := if system_prompt then 3/10 else TEMPERATURE
  let max_tokens : ℕ := if system_prompt then 1200 else MAX_TOKENS
  let content :=
    match provider with
    | .httpError =>
      "Our AI service is currently experiencing high demand. Please try again in a moment."
    | .keyError =>
      "We're having trouble processing the AI response. Please try again."
    | .noChoices =>
      "Our discussion service is temporarily unavailable. Please try again later."
    | .content s =>
      if pyStrip s = "" then
        "Our discussion service is temporarily unavailable. Please try again later."
      else s
  { final_prompt := final_prompt, temperature := temp
    max_tokens := max_tokens, content := content }

/-- `ChatRequest` pydantic model (already JSON-decoded). -/
structure ChatRequest where
  messages : List Message
  discussionTitle : String
  user_id : Option String
deriving DecidableEq

/-- Pydantic validation of `ChatRequest`: `messages` min 1 item,
`discussionTitle` length 2..100, `user_id` min length 1 when present. -/
def chatRequestValid (r : ChatRequest) : Bool :=
  decide (1 ≤ r.messages.length) &&
  decide (2 ≤ r.discussionTitle.length) && decide (r.discussionTitle.length ≤ 100) &&
  (match r.user_id with
   | none => true
   | some u => decide (1 ≤ u.length))

/-- `ConclusionRequest` pydantic model: `ChatRequest` plus optional
`focus_areas`. -/
structure ConclusionRequest where
  messages : List Message
  discussionTitle : String
  user_id : Option String
  focus_areas : Option (List String)
deriving DecidableEq

/-- Pydantic validation of `ConclusionRequest`: the `ChatRequest` rules plus
`focus_areas` min 1 item when present. -/
def conclusionRequestValid (r : ConclusionRequest) : Bool :=
  chatRequestValid { messages := r.messages, discussionTitle := r.discussionTitle
                     user_id := r.user_id } &&
  (match r.focus_areas with
   | none => true
   | some f => decide (1 ≤ f.length))

/-- HTTP response of `src/app.py`'s `/api/chat`. -/
structure ChatHttp where
  status : ℕ
  response : Option String
  error : Option String
deriving DecidableEq

/-- The `chat` endpoint of `src/app.py`: `400` on pydantic failure,
otherwise `200 {response: get_ai_response(...)}` — `get_ai_response` never
raises, so the `500` handler is unreachable. -/
def chat (req : ChatRequest) (TEMPERATURE : ℚ) (MAX_TOKENS : ℕ)
    (provider : ProviderResult) : ChatHttp :=
  if chatRequestValid req then
    { status := 200
      response := some (get_ai_response false req.discussionTitle
        TEMPERATURE MAX_TOKENS provider).content
      error := none }
  else
    { status := 400, response := none, error := some "Invalid request format" }

/-- `required_sections` list of `generate_conclusion` (lines 208-213). -/
def required_sections : List String :=
  ["Key Points Summary", "Major Insights", "Agreements Reached", "Action Plan"]

/-- The structural check of `generate_conclusion`:
`all(section in response for section in required_sections)` — substring
containment of the bare section names. -/
def conclusionCheck (response : String) : Bool :=
  required_sections.all (fun sec => pyContains response sec)

/-- HTTP response of `src/app.py`'s `/api/generate-conclusion`.
`provider_called` records whether the handler reached `get_ai_response`. -/
structure ConcHttp where
  status : ℕ
  retry : Option Bool
  conclusion : Option String
  error : Option String
  provider_called : Bool
deriving DecidableEq

/-- The `generate_conclusion` endpoint of `src/app.py`: pydantic `400`;
`400` "Not enough discussion content to generate conclusion" when fewer
than 3 messages, before any provider call; otherwise call the provider and
apply `conclusionCheck` — failure raises `ValueError`, answered
`500 {retry: true}`. -/
def generate_conclusion (req : ConclusionRequest) (TEMPERATURE : ℚ)
    (MAX_TOKENS : ℕ) (provider : ProviderResult) : ConcHttp :=
  if conclusionRequestValid req then
    if req.messages.length < 3 then
      { status := 400, retry := some false, conclusion := none
        error := some "Not enough discussion content to generate conclusion"
        provider_called := false }
    else
      let call := get_ai_response true req.discussionTitle
        TEMPERATURE MAX_TOKENS provider
      if conclusionCheck call.content then
        { status := 200, retry := none, conclusion := some call.content
          error := none, provider_called := true }
      else
        { status := 500, retry := some true, conclusion := none
          error := some "Conclusion generation quality check failed"
          provider_called := true }
  else
    { status := 400, retry := some false, conclusion := none
      error := some "validation error", provider_called := false }

end SrcApp

/-!
### Claim-side definitions

These follow the spec's / claims' words, to be compared with the
definitions taken from the source.
-/

/-- Claim C3's parsing step, as the claim states it: the prefix tests are
made on the line itself (no stripping of the line before matching), only
the remainders are trimmed; every other line is ignored. -/
def claimC3_step (st : TrishBackend.ParseState) (line : String) : TrishBackend.ParseState :=
  if pyStartsWith line "## " then
    { sections := TrishBackend.dictSet st.sections (pyStrip (pyDrop line 3)) []
      current := some (pyStrip (pyDrop line 3)) }
  else
    match st.current with
    | some cur =>
      if pyStartsWith line "- " then
        { sections := TrishBackend.dictAppend st.sections cur (pyStrip (pyDrop line 2))
          current := some cur }
      else st
    | none => st

/-- Claim C3's parser: one left-to-right pass of `claimC3_step` over the
given lines. -/
def claimC3_parse (ls : List String) : List (String × List String) :=
  (ls.foldl claimC3_step { sections := [], current := none }).sections

/-- Claim C4's acceptance test, as the claim states it: the generated text
must contain all four required section headers in the `'## <name>'` form as
substrings. -/
def claimC4_headerFormCheck (response : String) : Bool :=
  SrcApp.required_sections.all (fun sec => pyContains response ("## " ++ sec))

/-- Claim C9's count, as the claim states it: credentials that are
configured and non-empty (missing or empty-string credentials not
counted). -/
def claimC9_nonempty_count (keys : List (Option String)) : ℕ :=
  (TrishBackend.usableOf keys).length

/-- Does the string contain a raw `<` or `>` character (claim C5)? -/
def hasAngle (s : String) : Bool := s.toList.any (fun c => c = '<' || c = '>')

/-!
### Vocabulary for the parser theorems (C10)
-/

namespace TrishBackend

/-- Is `line` a header line opening precisely section `n`? -/
def isHeaderFor (n : String) (line : String) : Bool :=
  isHeaderLine line && headerNameOf line == n

/-- The section names of the header lines of `ls`, in encounter order, with
repetitions. -/
def headerNames (ls : List String) : List String :=
  ls.filterMap (fun l => if isHeaderLine l then some (headerNameOf l) else none)

/-- Keep the first occurrence of each element, dropping later repetitions;
`seen` accumulates the elements already emitted. -/
def dedupFirstAux (seen : List String) : List String → List String
  | [] => []
  | a :: l => if a ∈ seen then dedupFirstAux seen l else a :: dedupFirstAux (a :: seen) l

/-- Keep the first occurrence of each element of `l`. -/
def dedupFirst (l : List String) : List String := dedupFirstAux [] l

/-- The bullets that `parse_conclusion` collects from the line suffix `v`
into the section that is open when `v` starts: the bullet lines of `v` up
to (excluding) the next header line. -/
def segBullets (v : List String) : List String :=
  (v.takeWhile (fun l => !isHeaderLine l)).filterMap
    (fun l => if isBulletLine l then some (bulletOf l) else none)

end TrishBackend


/-!
## Lemmas
-/

namespace TrishBackend

theorem dictGet_dictSet_self (d : List (String × List String)) (k : String) (v : List String) :
    dictGet (dictSet d k v) k = some v := by
  induction d with
  | nil => simp [dictSet, dictGet]
  | cons p d ih =>
    by_cases h : p.1 = k
    · simp [dictSet, dictGet, h]
    · simp [dictSet, dictGet, h, ih]

theorem dictGet_dictSet_ne (d : List (String × List String)) (k k' : String) (v : List String)
    (h : k' ≠ k) : dictGet (dictSet d k v) k' = dictGet d k' := by
  have h2 : ¬ k = k' := fun hh => h hh.symm
  induction d with
  | nil => simp [dictSet, dictGet, h2]
  | cons p d ih =>
    by_cases hp : p.1 = k
    · subst hp
      simp [dictSet, dictGet, h2]
    · by_cases hp' : p.1 = k'
      · simp [dictSet, dictGet, hp, hp', h]
      · simp [dictSet, dictGet, hp, hp', ih]

theorem dictGet_dictAppend_ne (d : List (String × List String)) (k k' : String) (x : String)
    (h : k' ≠ k) : dictGet (dictAppend d k x) k' = dictGet d k' := by
  have h2 : ¬ k = k' := fun hh => h hh.symm
  induction d with
  | nil => simp [dictAppend]
  | cons p d ih =>
    by_cases hp : p.1 = k
    · subst hp
      simp [dictAppend, dictGet, h2]
    · by_cases hp' : p.1 = k'
      · simp [dictAppend, dictGet, hp, hp', h]
      · simp [dictAppend, dictGet, hp, hp', ih]

theorem dictGet_dictAppend_self (d : List (String × List String)) (k x : String)
    (bs : List String) (h : dictGet d k = some bs) :
    dictGet (dictAppend d k x) k = some (bs ++ [x]) := by
  induction d with
  | nil => simp [dictGet] at h
  | cons p d ih =>
    by_cases hp : p.1 = k
    · simp [dictGet, hp] at h
      simp [dictAppend, dictGet, hp, h]
    · simp [dictGet, hp] at h
      simp [dictAppend, dictGet, hp, ih h]

theorem dictKeys_dictAppend (d : List (String × List String)) (k x : String) :
    dictKeys (dictAppend d k x) = dictKeys d := by
  induction d with
  | nil => simp [dictAppend]
  | cons p d ih =>
    by_cases hp : p.1 = k
    · simp [dictAppend, dictKeys, hp]
    · simpa [dictAppend, dictKeys, hp] using ih

theorem dictKeys_dictSet_mem (d : List (String × List String)) (k : String) (v : List String)
    (h : k ∈ dictKeys d) : dictKeys (dictSet d k v) = dictKeys d := by
  induction d with
  | nil => simp [dictKeys] at h
  | cons p d ih =>
    by_cases hp : p.1 = k
    · simp [dictSet, dictKeys, hp]
    · have h' : k ∈ dictKeys d := by
        rcases (by simpa [dictKeys] using h) with h | h
        · exact absurd h.symm hp
        · simpa [dictKeys] using h
      simpa [dictSet, dictKeys, hp] using ih h'

theorem dictKeys_dictSet_not_mem (d : List (String × List String)) (k : String) (v : List String)
    (h : k ∉ dictKeys d) : dictKeys (dictSet d k v) = dictKeys d ++ [k] := by
  induction d with
  | nil => simp [dictSet, dictKeys]
  | cons p d ih =>
    have hp : p.1 ≠ k := by
      intro hh
      exact h (by simp [dictKeys, hh])
    have h' : k ∉ dictKeys d := by
      intro hh
      exact h (by simp [dictKeys]; right; simpa [dictKeys] using hh)
    simpa [dictSet, dictKeys, hp] using ih h'

end TrishBackend

namespace TrishBackend

theorem usableOf_nil : usableOf [] = [] := rfl

theorem usableOf_none (keys : List (Option String)) :
    usableOf (none :: keys) = usableOf keys := by
  simp [usableOf]

theorem usableOf_some_empty (keys : List (Option String)) :
    usableOf (some "" :: keys) = usableOf keys := by
  simp [usableOf]

theorem usableOf_some (keys : List (Option String)) (s : String) (h : s ≠ "") :
    usableOf (some s :: keys) = s :: usableOf keys := by
  simp [usableOf, h]

/-- When every usable credential fails (transport error or empty content),
the gateway attempts each of them in pool order and yields `None`. -/
theorem trace_all_fail (keys : List (Option String)) (oracle : String → Option String)
    (h : ∀ s ∈ usableOf keys, oracle s = none ∨ oracle s = some "") :
    get_trish_response_trace keys oracle = (usableOf keys, none) := by
  induction keys with
  | nil => rfl
  | cons k keys ih =>
    cases k with
    | none =>
      rw [usableOf_none] at *
      simpa [get_trish_response_trace] using ih h
    | some s =>
      by_cases hs : s = ""
      · subst hs
        rw [usableOf_some_empty] at *
        simpa [get_trish_response_trace] using ih h
      · rw [usableOf_some keys s hs] at *
        have hmem : s ∈ s :: usableOf keys := by simp
        have htail : ∀ x ∈ usableOf keys, oracle x = none ∨ oracle x = some "" := by
          intro x hx
          exact h x (by simp [hx])
        rcases h s hmem with ho | ho
        · simp [get_trish_response_trace, hs, ho, ih htail]
        · simp [get_trish_response_trace, hs, ho, ih htail]

/-- When every usable credential before `k` fails and `k` succeeds with
truthy content `t`, the gateway attempts exactly the usable credentials up
to and including `k`, in order, and returns `t`; later pool entries are
never attempted. -/
theorem trace_prefix_success (pre : List (Option String)) (k : String)
    (post : List (Option String)) (oracle : String → Option String) (t : String)
    (hpre : ∀ s ∈ usableOf pre, oracle s = none ∨ oracle s = some "")
    (hk : k ≠ "") (hok : oracle k = some t) (ht : t ≠ "") :
    get_trish_response_trace (pre ++ some k :: post) oracle = (usableOf pre ++ [k], some t) := by
  induction pre with
  | nil =>
    simp [get_trish_response_trace, hk, hok, ht, usableOf_nil]
  | cons p pre ih =>
    cases p with
    | none =>
      rw [usableOf_none] at *
      simpa [get_trish_response_trace] using ih hpre
    | some s =>
      by_cases hs : s = ""
      · subst hs
        rw [usableOf_some_empty] at *
        simpa [get_trish_response_trace] using ih hpre
      · rw [usableOf_some pre s hs] at *
        have hmem : s ∈ s :: usableOf pre := by simp
        have htail : ∀ x ∈ usableOf pre, oracle x = none ∨ oracle x = some "" := by
          intro x hx
          exact hpre x (by simp [hx])
        rcases hpre s hmem with ho | ho
        · simp [get_trish_response_trace, hs, ho, ih htail]
        · simp [get_trish_response_trace, hs, ho, ih htail]

/-- The gateway's value is `None` or truthy content: `some ""` is
impossible (`if response:` skips falsy replies). -/
theorem get_trish_response_none_or_nonempty (keys : List (Option String))
    (oracle : String → Option String) :
    get_trish_response keys oracle = none ∨
      ∃ c, get_trish_response keys oracle = some c ∧ c ≠ "" := by
  induction keys with
  | nil => left; rfl
  | cons k keys ih =>
    cases k with
    | none => simpa [get_trish_response, get_trish_response_trace] using ih
    | some s =>
      by_cases hs : s = ""
      · subst hs
        simpa [get_trish_response, get_trish_response_trace] using ih
      · cases ho : oracle s with
        | none =>
          simpa [get_trish_response, get_trish_response_trace, hs, ho] using ih
        | some c =>
          by_cases hc : c = ""
          · subst hc
            simpa [get_trish_response, get_trish_response_trace, hs, ho] using ih
          · right
            exact ⟨c, by simp [get_trish_response, get_trish_response_trace, hs, ho, hc], hc⟩

end TrishBackend

namespace TrishBackend

theorem headerNames_cons_header (l : String) (ls : List String) (h : isHeaderLine l = true) :
    headerNames (l :: ls) = headerNameOf l :: headerNames ls := by
  simp [headerNames, h]

theorem headerNames_cons_not (l : String) (ls : List String) (h : isHeaderLine l = false) :
    headerNames (l :: ls) = headerNames ls := by
  simp [headerNames, h]

theorem dedupFirstAux_congr (l : List String) : ∀ s₁ s₂ : List String,
    (∀ a, a ∈ s₁ ↔ a ∈ s₂) → dedupFirstAux s₁ l = dedupFirstAux s₂ l := by
  induction l with
  | nil => intro s₁ s₂ _; rfl
  | cons a l ih =>
    intro s₁ s₂ hs
    by_cases ha : a ∈ s₁
    · have ha2 : a ∈ s₂ := (hs a).1 ha
      simp only [dedupFirstAux, if_pos ha, if_pos ha2]
      exact ih s₁ s₂ hs
    · have ha2 : a ∉ s₂ := fun h => ha ((hs a).2 h)
      simp only [dedupFirstAux, if_neg ha, if_neg ha2]
      refine congrArg (a :: ·) (ih _ _ ?_)
      intro b
      simp [hs b]

theorem parseStep_header (st : ParseState) (l : String) (h : isHeaderLine l = true) :
    parseStep st l =
      { sections := dictSet st.sections (headerNameOf l) []
        current := some (headerNameOf l) } := by
  simp [parseStep, h]

theorem parseStep_not_header (st : ParseState) (l : String) (h : isHeaderLine l = false) :
    dictKeys (parseStep st l).sections = dictKeys st.sections ∧
      (parseStep st l).current = st.current := by
  cases hc : st.current with
  | none => simp [parseStep, h, hc]
  | some c =>
    by_cases hb : c ≠ "" ∧ isBulletLine l = true
    · simp [parseStep, h, hc, hb, dictKeys_dictAppend]
    · simp [parseStep, h, hc, hb]

theorem foldl_parse_keys (ls : List String) : ∀ st : ParseState,
    dictKeys ((ls.foldl parseStep st).sections) =
      dictKeys st.sections ++ dedupFirstAux (dictKeys st.sections) (headerNames ls) := by
  induction ls with
  | nil => intro st; simp [dedupFirstAux, headerNames]
  | cons l ls ih =>
    intro st
    by_cases h : isHeaderLine l = true
    · rw [List.foldl_cons, parseStep_header st l h, headerNames_cons_header l ls h]
      by_cases hn : headerNameOf l ∈ dictKeys st.sections
      · rw [ih, dictKeys_dictSet_mem _ _ _ hn]
        simp only [dedupFirstAux, if_pos hn]
      · rw [ih, dictKeys_dictSet_not_mem _ _ _ hn]
        simp only [dedupFirstAux, if_neg hn]
        rw [List.append_assoc]
        refine congrArg (dictKeys st.sections ++ ·) ?_
        have hcong := dedupFirstAux_congr (headerNames ls)
          (dictKeys st.sections ++ [headerNameOf l])
          (headerNameOf l :: dictKeys st.sections)
          (by intro a; simp [or_comm])
        rw [hcong]
        simp
    · have h' : isHeaderLine l = false := by simpa using h
      rw [List.foldl_cons, headerNames_cons_not l ls h', ih (parseStep st l),
        (parseStep_not_header st l h').1]

end TrishBackend

namespace TrishBackend

theorem isHeaderFor_name_ne (n l : String) (hl : isHeaderLine l = true)
    (h : isHeaderFor n l = false) : headerNameOf l ≠ n := by
  intro he
  rw [isHeaderFor, hl, he] at h
  simp at h

theorem segBullets_cons_header (l : String) (v : List String) (h : isHeaderLine l = true) :
    segBullets (l :: v) = [] := by
  simp [segBullets, h]

theorem segBullets_cons_bullet (l : String) (v : List String) (h : isHeaderLine l = false)
    (hb : isBulletLine l = true) : segBullets (l :: v) = bulletOf l :: segBullets v := by
  simp [segBullets, h, hb]

theorem segBullets_cons_other (l : String) (v : List String) (h : isHeaderLine l = false)
    (hb : isBulletLine l = false) : segBullets (l :: v) = segBullets v := by
  simp [segBullets, h, hb]

/-- Once the parser has moved off section `n` and no further line reopens
`n`, the entry for `n` never changes again. -/
theorem foldl_parse_frozen (v : List String) : ∀ (st : ParseState) (n : String),
    (∀ l ∈ v, isHeaderFor n l = false) → st.current ≠ some n →
    dictGet ((v.foldl parseStep st).sections) n = dictGet st.sections n ∧
      (v.foldl parseStep st).current ≠ some n := by
  induction v with
  | nil => intro st n _ hcur; exact ⟨rfl, hcur⟩
  | cons l v ih =>
    intro st n hall hcur
    have hl : isHeaderFor n l = false := hall l (by simp)
    have htail : ∀ x ∈ v, isHeaderFor n x = false := fun x hx => hall x (by simp [hx])
    by_cases h : isHeaderLine l = true
    · have hm : headerNameOf l ≠ n := isHeaderFor_name_ne n l h hl
      rw [List.foldl_cons, parseStep_header st l h]
      have hrec := ih { sections := dictSet st.sections (headerNameOf l) []
                        current := some (headerNameOf l) } n htail (by simp [hm])
      refine ⟨?_, hrec.2⟩
      rw [hrec.1]
      exact dictGet_dictSet_ne _ _ _ _ (fun he => hm he.symm)
    · have h' : isHeaderLine l = false := by simpa using h
      rw [List.foldl_cons]
      cases hc : st.current with
      | none =>
        have hst : parseStep st l = st := by simp [parseStep, h', hc]
        rw [hst]
        exact ih st n htail hcur
      | some c =>
        have hcn : c ≠ n := fun he => hcur (by rw [hc, he])
        by_cases hb : c ≠ "" ∧ isBulletLine l = true
        · have hst : parseStep st l =
              { sections := dictAppend st.sections c (bulletOf l), current := some c } := by
            simp [parseStep, h', hc, hb]
          rw [hst]
          have hrec := ih { sections := dictAppend st.sections c (bulletOf l)
                            current := some c } n htail (by simp [hcn])
          refine ⟨?_, hrec.2⟩
          rw [hrec.1]
          exact dictGet_dictAppend_ne _ _ _ _ (fun he => hcn he.symm)
        · have hst : parseStep st l = st := by simp [parseStep, h', hc, hb]
          rw [hst]
          exact ih st n htail hcur

/-- While section `n` is open (and no line reopens `n`), the parser appends
exactly the bullet lines up to the next header to `n`'s entry. -/
theorem foldl_parse_collect (v : List String) : ∀ (st : ParseState) (n : String) (bs : List String),
    st.current = some n → n ≠ "" → dictGet st.sections n = some bs →
    (∀ l ∈ v, isHeaderFor n l = false) →
    dictGet ((v.foldl parseStep st).sections) n = some (bs ++ segBullets v) := by
  induction v with
  | nil => intro st n bs _ _ hget _; simpa [segBullets]
  | cons l v ih =>
    intro st n bs hcur hn hget hall
    have hl : isHeaderFor n l = false := hall l (by simp)
    have htail : ∀ x ∈ v, isHeaderFor n x = false := fun x hx => hall x (by simp [hx])
    by_cases h : isHeaderLine l = true
    · have hm : headerNameOf l ≠ n := isHeaderFor_name_ne n l h hl
      rw [List.foldl_cons, parseStep_header st l h, segBullets_cons_header l v h]
      have hrec := foldl_parse_frozen v
        { sections := dictSet st.sections (headerNameOf l) []
          current := some (headerNameOf l) } n htail (by simp [hm])
      rw [hrec.1, dictGet_dictSet_ne _ _ _ _ (fun he => hm he.symm), hget]
      simp
    · have h' : isHeaderLine l = false := by simpa using h
      rw [List.foldl_cons]
      by_cases hb : isBulletLine l = true
      · have hst : parseStep st l =
            { sections := dictAppend st.sections n (bulletOf l), current := some n } := by
          simp [parseStep, h', hcur, hn, hb]
        rw [hst, segBullets_cons_bullet l v h' hb]
        have hget' : dictGet (dictAppend st.sections n (bulletOf l)) n =
            some (bs ++ [bulletOf l]) := dictGet_dictAppend_self _ _ _ _ hget
        have := ih { sections := dictAppend st.sections n (bulletOf l)
                     current := some n } n (bs ++ [bulletOf l]) rfl hn hget' htail
        rw [this]
        simp
      · have hb' : isBulletLine l = false := by simpa using hb
        have hst : parseStep st l = st := by
          simp [parseStep, h', hcur, hb']
        rw [hst, segBullets_cons_other l v h' hb']
        exact ih st n bs hcur hn hget htail

end TrishBackend

theorem listIsPre_iff_append (p : List Char) : ∀ l : List Char,
    listIsPre p l = true ↔ ∃ r, l = p ++ r := by
  induction p with
  | nil =>
    intro l
    simp [listIsPre]
  | cons a p ih =>
    intro l
    cases l with
    | nil => simp [listIsPre]
    | cons b l =>
      simp only [listIsPre, Bool.and_eq_true, decide_eq_true_eq, ih l]
      constructor
      · rintro ⟨rfl, r, rfl⟩
        exact ⟨r, rfl⟩
      · rintro ⟨r, hr⟩
        injection hr with h1 h2
        exact ⟨h1.symm, r, h2⟩

theorem dropWhile_head_false {α : Type} (p : α → Bool) : ∀ (xs : List α) (a : α) (t : List α),
    xs.dropWhile p = a :: t → p a = false := by
  intro xs
  induction xs with
  | nil => intro a t h; simp [List.dropWhile] at h
  | cons x xs ih =>
    intro a t h
    rw [List.dropWhile_cons] at h
    by_cases hx : p x = true
    · rw [if_pos hx] at h
      exact ih a t h
    · rw [if_neg hx] at h
      injection h with h1 _
      subst h1
      simpa using hx

namespace TrishBackend

/-- The name opened by a header line is never the empty string: the stripped
line starts with `"## "` and, being stripped, cannot end in whitespace, so
the remainder after the marker strips to something non-empty.  (Hence the
truthiness test `current_section and ...` never sees an empty current
section name.) -/
theorem headerNameOf_ne_empty (l : String) (h : isHeaderLine l = true) :
    headerNameOf l ≠ "" := by
  have hL : (pyStrip l).toList =
      ((l.toList.dropWhile isPyWs).reverse.dropWhile isPyWs).reverse := rfl
  have hpre : listIsPre "## ".toList (pyStrip l).toList = true := h
  rw [show ("## ".toList) = ['#', '#', ' '] from rfl, listIsPre_iff_append] at hpre
  obtain ⟨R, hR⟩ := hpre
  intro hname
  have hstrip : ((R.dropWhile isPyWs).reverse.dropWhile isPyWs).reverse = [] := by
    have hdrop : (pyDrop (pyStrip l) 3).toList = R := by
      show (pyStrip l).toList.drop 3 = R
      rw [hR]
      rfl
    have := congrArg String.toList hname
    rw [show (headerNameOf l).toList =
        (((pyDrop (pyStrip l) 3).toList.dropWhile isPyWs).reverse.dropWhile
          isPyWs).reverse from rfl, hdrop] at this
    simpa using this
  have hallR : ∀ a ∈ R, isPyWs a = true := by
    have h1 : (R.dropWhile isPyWs).reverse.dropWhile isPyWs = [] := by
      simpa [List.reverse_eq_nil_iff] using congrArg List.reverse hstrip
    have h2 : ∀ a ∈ (R.dropWhile isPyWs).reverse, isPyWs a = true := by
      rw [List.dropWhile_eq_nil_iff] at h1
      exact h1
    have h3 : ∀ a ∈ R.dropWhile isPyWs, isPyWs a = true := by
      intro a ha
      exact h2 a (by simpa [List.mem_reverse] using ha)
    intro a ha
    rw [← List.takeWhile_append_dropWhile (p := isPyWs) (l := R)] at ha
    rcases List.mem_append.1 ha with ha | ha
    · exact List.mem_takeWhile_imp ha
    · exact h3 a ha
  have hCrev : (pyStrip l).toList.reverse =
      (l.toList.dropWhile isPyWs).reverse.dropWhile isPyWs := by
    rw [hL, List.reverse_reverse]
  cases hRc : R with
  | nil =>
    subst hRc
    have : (pyStrip l).toList.reverse = [' ', '#', '#'] := by
      rw [hR]
      rfl
    have hhead := dropWhile_head_false isPyWs _ _ _ (hCrev.symm.trans this)
    simp [isPyWs] at hhead
  | cons r R₂ =>
    have hrev : (pyStrip l).toList.reverse = R.reverse ++ [' ', '#', '#'] := by
      rw [hR, hRc]
      simp
    cases hRr : R.reverse with
    | nil =>
      rw [hRc] at hRr
      simp at hRr
    | cons a rr =>
      have : (pyStrip l).toList.reverse = a :: (rr ++ [' ', '#', '#']) := by
        rw [hrev, hRr]
        rfl
      have hhead := dropWhile_head_false isPyWs _ _ _ (hCrev.symm.trans this)
      have hmem : a ∈ R := by
        have : a ∈ R.reverse := by rw [hRr]; simp
        simpa [List.mem_reverse] using this
      rw [hallR a hmem] at hhead
      exact Bool.true_eq_false.mp hhead

end TrishBackend

theorem parseStep_eq_claimC3 (st : TrishBackend.ParseState) (l : String)
    (hok : ∀ c, st.current = some c → c ≠ "") :
    TrishBackend.parseStep st l = claimC3_step st (pyStrip l) := by
  by_cases h : TrishBackend.isHeaderLine l = true
  · have h' : pyStartsWith (pyStrip l) "## " = true := h
    rw [TrishBackend.parseStep_header st l h]
    simp [claimC3_step, h', TrishBackend.headerNameOf]
  · have h' : pyStartsWith (pyStrip l) "## " = false := by
      simpa [TrishBackend.isHeaderLine] using h
    cases hc : st.current with
    | none => simp [TrishBackend.parseStep, claimC3_step, TrishBackend.isHeaderLine, h', hc]
    | some c =>
      have hcne : c ≠ "" := hok c hc
      by_cases hb : TrishBackend.isBulletLine l = true
      · have hb' : pyStartsWith (pyStrip l) "- " = true := hb
        simp [TrishBackend.parseStep, claimC3_step, TrishBackend.isHeaderLine, h', hc, hb,
          hb', hcne, TrishBackend.bulletOf]
      · have hb2 : TrishBackend.isBulletLine l = false := by simpa using hb
        have hb' : pyStartsWith (pyStrip l) "- " = false := hb2
        simp [TrishBackend.parseStep, claimC3_step, TrishBackend.isHeaderLine, h', hc, hb2, hb']

theorem parseStep_stateOk (st : TrishBackend.ParseState) (l : String)
    (hok : ∀ c, st.current = some c → c ≠ "") :
    ∀ c, (TrishBackend.parseStep st l).current = some c → c ≠ "" := by
  by_cases h : TrishBackend.isHeaderLine l = true
  · rw [TrishBackend.parseStep_header st l h]
    intro c hc
    injection hc with hc
    subst hc
    exact TrishBackend.headerNameOf_ne_empty l h
  · have h' : TrishBackend.isHeaderLine l = false := by simpa using h
    cases hc : st.current with
    | none =>
      have : TrishBackend.parseStep st l = st := by simp [TrishBackend.parseStep, h', hc]
      rw [this, hc]
      intro c hcc
      cases hcc
    | some c =>
      by_cases hb : c ≠ "" ∧ TrishBackend.isBulletLine l = true
      · have : TrishBackend.parseStep st l =
            { sections := TrishBackend.dictAppend st.sections c (TrishBackend.bulletOf l)
              current := some c } := by
          simp [TrishBackend.parseStep, h', hc, hb]
        rw [this]
        intro c2 hcc
        have hcc2 : c = c2 := by injection hcc
        exact hcc2 ▸ hok c hc
      · have : TrishBackend.parseStep st l = st := by simp [TrishBackend.parseStep, h', hc, hb]
        rw [this]
        exact hok

theorem foldl_parse_eq_claimC3 (ls : List String) : ∀ st : TrishBackend.ParseState,
    (∀ c, st.current = some c → c ≠ "") →
    ls.foldl TrishBackend.parseStep st = (ls.map pyStrip).foldl claimC3_step st := by
  induction ls with
  | nil => intro st _; rfl
  | cons l ls ih =>
    intro st hok
    rw [List.map_cons, List.foldl_cons, List.foldl_cons, ← parseStep_eq_claimC3 st l hok]
    exact ih (TrishBackend.parseStep st l) (parseStep_stateOk st l hok)

theorem string_toList_append (s t : String) : (s ++ t).toList = s.toList ++ t.toList := by
  cases s
  cases t
  rfl

theorem hasAngle_append (s t : String) :
    hasAngle (s ++ t) = (hasAngle s || hasAngle t) := by
  simp [hasAngle, string_toList_append]

theorem hasAngle_append3 (a b c : String) (ha : hasAngle a = false)
    (hb : hasAngle b = false) (hc : hasAngle c = false) :
    hasAngle (a ++ b ++ c) = false := by
  simp [hasAngle_append, ha, hb, hc]

theorem escapeCharL_no_angle (c : Char) :
    (SrcApp.escapeCharL c).any (fun x => x = '<' || x = '>') = false := by
  by_cases h1 : c = '&'
  · subst h1; decide
  · by_cases h2 : c = '<'
    · subst h2; decide
    · by_cases h3 : c = '>'
      · subst h3; decide
      · by_cases h4 : c = '"'
        · subst h4; decide
        · by_cases h5 : c = Char.ofNat 39
          · subst h5; decide
          · simp [SrcApp.escapeCharL, h1, h2, h3, h4, h5]

theorem escapeList_no_angle (l : List Char) :
    (SrcApp.escapeList l).any (fun x => x = '<' || x = '>') = false := by
  induction l with
  | nil => rfl
  | cons c cs ih =>
    simp [SrcApp.escapeList, List.any_append, escapeCharL_no_angle c, ih]

theorem hasAngle_sanitize (s : String) : hasAngle (SrcApp.sanitize_input s) = false := by
  show (SrcApp.escapeList (pyStrip s).toList).any (fun x => x = '<' || x = '>') = false
  exact escapeList_no_angle _

theorem available_keys_eq_countP (keys : List (Option String)) :
    TrishBackend.available_keys keys = keys.countP (fun k => k.isSome) := by
  induction keys with
  | nil => rfl
  | cons k keys ih =>
    cases k with
    | none =>
      simpa [TrishBackend.available_keys, List.filterMap_cons, List.countP_cons] using ih
    | some s =>
      simp [TrishBackend.available_keys, List.filterMap_cons, List.countP_cons] at *
      omega

theorem claimC9_le_available (keys : List (Option String)) :
    claimC9_nonempty_count keys ≤ TrishBackend.available_keys keys := by
  induction keys with
  | nil => exact Nat.le_refl 0
  | cons k keys ih =>
    cases k with
    | none =>
      simpa [claimC9_nonempty_count, TrishBackend.usableOf_none,
        TrishBackend.available_keys, List.filterMap_cons] using ih
    | some s =>
      by_cases hs : s = ""
      · subst hs
        have h1 : claimC9_nonempty_count (some "" :: keys) = claimC9_nonempty_count keys := by
          simp [claimC9_nonempty_count, TrishBackend.usableOf_some_empty]
        have h2 : TrishBackend.available_keys (some "" :: keys) =
            TrishBackend.available_keys keys + 1 := by
          simp [TrishBackend.available_keys, List.filterMap_cons]
          omega
        omega
      · have h1 : claimC9_nonempty_count (some s :: keys) = claimC9_nonempty_count keys + 1 := by
          simp [claimC9_nonempty_count, TrishBackend.usableOf_some keys s hs]
        have h2 : TrishBackend.available_keys (some s :: keys) =
            TrishBackend.available_keys keys + 1 := by
          simp [TrishBackend.available_keys, List.filterMap_cons]
          omega
        omega

/-!
## Claim theorems
-/

/-- Claim C1: credential fallback is deterministic and sequential — the
gateway attempts the usable credentials in fixed pool order, one at a time,
stops at the first credential whose attempt yields truthy content and
returns that content (later credentials are never attempted); in
particular, for a pool `[A, B, C]` where A and B fail and C succeeds with
content `t`, exactly A then B then C are attempted, in that order, and the
result is `t`. -/
theorem credential_fallback_sequential :
    (∀ (pre : List (Option String)) (k : String) (post : List (Option String))
        (oracle : String → Option String) (t : String),
      (∀ s ∈ TrishBackend.usableOf pre, oracle s = none ∨ oracle s = some "") →
      k ≠ "" → oracle k = some t → t ≠ "" →
      TrishBackend.get_trish_response_trace (pre ++ some k :: post) oracle =
        (TrishBackend.usableOf pre ++ [k], some t)) ∧
    (∀ (a b c t : String) (oracle : String → Option String),
      a ≠ "" → b ≠ "" → c ≠ "" →
      oracle a = none → oracle b = none → oracle c = some t → t ≠ "" →
      TrishBackend.get_trish_response_trace [some a, some b, some c] oracle =
        ([a, b, c], some t)) := by
  constructor
  · exact TrishBackend.trace_prefix_success
  · intro a b c t oracle ha hb hc hoa hob hoc ht
    have hpre : ∀ s ∈ TrishBackend.usableOf [some a, some b],
        oracle s = none ∨ oracle s = some "" := by
      intro s hs
      rw [TrishBackend.usableOf_some _ a ha, TrishBackend.usableOf_some _ b hb,
        TrishBackend.usableOf_nil] at hs
      simp only [List.mem_cons, List.not_mem_nil, or_false] at hs
      rcases hs with rfl | rfl
      · exact Or.inl hoa
      · exact Or.inl hob
    have := TrishBackend.trace_prefix_success [some a, some b] c [] oracle t hpre hc hoc ht
    rw [TrishBackend.usableOf_some _ a ha, TrishBackend.usableOf_some _ b hb,
      TrishBackend.usableOf_nil] at this
    simpa using this

/-- Witness for C1 at a concrete pool and oracle. -/
theorem credential_fallback_sequential_witness :
    TrishBackend.get_trish_response_trace [some "A", some "B", some "C"]
      (fun k => if k = "C" then some "done" else none) = (["A", "B", "C"], some "done") :=
  credential_fallback_sequential.2 "A" "B" "C" "done"
    (fun k => if k = "C" then some "done" else none)
    (by decide) (by decide) (by decide) (by decide) (by decide) (by decide) (by decide)

/-- Counterexample to claim C2: the TRISH-Backend gateway returns
whitespace-only (but non-empty) content as a success — a provider reply of
`" "` is truthy in Python, so `/api/chat` answers `200` with `" "` as the
response body, although `" "` strips to the empty string. -/
theorem gateway_whitespace_success_cex :
    (TrishBackend.chat [] "topic" [some "k"] (fun _ => some " ")).status = 200 ∧
      (TrishBackend.chat [] "topic" [some "k"] (fun _ => some " ")).response = some " " ∧
      pyStrip " " = "" := by decide

/-- Claim C2 (amended): the TRISH-Backend gateway never returns absent or
empty-string content as a success (its result is `None` or a non-empty
string, and it is `None` whenever every usable credential fails), but
whitespace-only non-empty content is returned as a success; the `src/app.py`
variant's `get_ai_response` always returns content with non-empty strip —
it converts every failure, including whitespace-only provider content, into
a non-empty fallback sentence rather than a `ProviderExhausted` error. -/
theorem gateway_success_nonempty :
    (∀ (keys : List (Option String)) (oracle : String → Option String),
      TrishBackend.get_trish_response keys oracle = none ∨
        ∃ c, TrishBackend.get_trish_response keys oracle = some c ∧ c ≠ "") ∧
    (∀ (keys : List (Option String)) (oracle : String → Option String),
      (∀ s ∈ TrishBackend.usableOf keys, oracle s = none ∨ oracle s = some "") →
      TrishBackend.get_trish_response keys oracle = none) ∧
    (∀ (system_prompt : Bool) (ctx : String) (T : ℚ) (M : ℕ) (p : SrcApp.ProviderResult),
      pyStrip (SrcApp.get_ai_response system_prompt ctx T M p).content ≠ "") := by
  refine ⟨TrishBackend.get_trish_response_none_or_nonempty, ?_, ?_⟩
  · intro keys oracle h
    rw [TrishBackend.get_trish_response, TrishBackend.trace_all_fail keys oracle h]
  · intro sp ctx T M p
    cases p with
    | httpError => simp [SrcApp.get_ai_response]; decide
    | keyError => simp [SrcApp.get_ai_response]; decide
    | noChoices => simp [SrcApp.get_ai_response]; decide
    | content s =>
      by_cases hs : pyStrip s = ""
      · simp [SrcApp.get_ai_response, hs]; decide
      · simp [SrcApp.get_ai_response, hs]

/-- Witness for C2 (amended) at a concrete pool whose only credential
fails. -/
theorem gateway_success_nonempty_witness :
    TrishBackend.get_trish_response [some "k"] (fun _ => none) = none :=
  gateway_success_nonempty.2.1 [some "k"] (fun _ => none) (by decide)

/-- Counterexample to claim C3: the parser strips each line before the
prefix tests, so a bullet line with leading whitespace is not ignored — on
`"## A\n - x"` the claimed algorithm (raw-line matching) yields
`{"A": []}` while `parse_conclusion` yields `{"A": ["x"]}`. -/
theorem parser_rawline_cex :
    claimC3_parse (pySplitNl "## A\n - x") = [("A", [])] ∧
      TrishBackend.parse_conclusion "## A\n - x" = [("A", ["x"])] := by decide

/-- Claim C3 (amended): `parse_conclusion` performs one left-to-right pass,
but each line is stripped of surrounding whitespace before the `'## '` /
`'- '` prefix tests — equivalently, the claimed algorithm applied to the
stripped lines reproduces the parser exactly; the claimed concrete
round-trip holds: parsing
`"## Key Points Summary\n- a\n- b\n## Major Insights\n- c"` yields
`{"Key Points Summary": ["a", "b"], "Major Insights": ["c"]}` in encounter
order. -/
theorem parse_conclusion_stripped_lines :
    (∀ text : String,
      TrishBackend.parse_conclusion text = claimC3_parse ((pySplitNl text).map pyStrip)) ∧
      TrishBackend.parse_conclusion "## Key Points Summary\n- a\n- b\n## Major Insights\n- c" =
        [("Key Points Summary", ["a", "b"]), ("Major Insights", ["c"])] := by
  constructor
  · intro text
    exact congrArg TrishBackend.ParseState.sections
      (foldl_parse_eq_claimC3 (pySplitNl text) _ (fun c hc => by cases hc))
  · decide

/-- Counterexample to claim C4: `generate_conclusion` checks substring
containment of the bare section names, not of the `'## <name>'` header
form — a reply containing the four names without any `'## '` marker is
accepted with `200` although the claim requires a
`StructuralValidationFailed` (500) here. -/
theorem conclusion_validator_bare_names_cex :
    claimC4_headerFormCheck
        "Key Points Summary Major Insights Agreements Reached Action Plan" = false ∧
      SrcApp.generate_conclusion
        { messages := [⟨"user", "a"⟩, ⟨"user", "b"⟩, ⟨"user", "c"⟩]
          discussionTitle := "Budget", user_id := none, focus_areas := none }
        SrcApp.TEMPERATURE_default SrcApp.MAX_TOKENS_default
        (SrcApp.ProviderResult.content
          "Key Points Summary Major Insights Agreements Reached Action Plan") =
      { status := 200, retry := none
        conclusion := some "Key Points Summary Major Insights Agreements Reached Action Plan"
        error := none, provider_called := true } := by decide

/-- Claim C4 (amended): in conclusion mode, after a successful completion
the generated text is accepted exactly when it contains all four required
section names (`Key Points Summary`, `Major Insights`,
`Agreements Reached`, `Action Plan`) as bare substrings — the `'## '`
prefix is not required; when one is missing the request fails with HTTP 500
and retry hint true. -/
theorem conclusion_validator_substring :
    ∀ (req : SrcApp.ConclusionRequest) (T : ℚ) (M : ℕ) (p : SrcApp.ProviderResult),
      SrcApp.conclusionRequestValid req = true → 3 ≤ req.messages.length →
      (SrcApp.conclusionCheck (SrcApp.get_ai_response true req.discussionTitle T M p).content
          = true →
        SrcApp.generate_conclusion req T M p =
          { status := 200, retry := none
            conclusion := some (SrcApp.get_ai_response true req.discussionTitle T M p).content
            error := none, provider_called := true }) ∧
      (SrcApp.conclusionCheck (SrcApp.get_ai_response true req.discussionTitle T M p).content
          = false →
        SrcApp.generate_conclusion req T M p =
          { status := 500, retry := some true, conclusion := none
            error := some "Conclusion generation quality check failed"
            provider_called := true }) := by
  intro req T M p hvalid hlen
  have hnl : ¬ (req.messages.length < 3) := Nat.not_lt.mpr hlen
  constructor
  · intro hcheck
    simp [SrcApp.generate_conclusion, hvalid, hnl, hcheck]
  · intro hcheck
    simp [SrcApp.generate_conclusion, hvalid, hnl, hcheck]

/-- Witness for C4 (amended) at a concrete valid request and a reply that
does carry the four `'## '` headers. -/
theorem conclusion_validator_substring_witness :
    SrcApp.generate_conclusion
      { messages := [⟨"user", "a"⟩, ⟨"user", "b"⟩, ⟨"user", "c"⟩]
        discussionTitle := "Budget", user_id := none, focus_areas := none }
      SrcApp.TEMPERATURE_default SrcApp.MAX_TOKENS_default
      (SrcApp.ProviderResult.content
        "## Key Points Summary\n## Major Insights\n## Agreements Reached\n## Action Plan") =
    { status := 200, retry := none
      conclusion :=
        some "## Key Points Summary\n## Major Insights\n## Agreements Reached\n## Action Plan"
      error := none, provider_called := true } :=
  (conclusion_validator_substring
    { messages := [⟨"user", "a"⟩, ⟨"user", "b"⟩, ⟨"user", "c"⟩]
      discussionTitle := "Budget", user_id := none, focus_areas := none }
    SrcApp.TEMPERATURE_default SrcApp.MAX_TOKENS_default
    (SrcApp.ProviderResult.content
      "## Key Points Summary\n## Major Insights\n## Agreements Reached\n## Action Plan")
    (by decide) (by decide)).1 (by decide)

/-- Counterexample to claim C5: the TRISH-Backend `chat` endpoint
interpolates the topic into its system prompt verbatim — for the input
`"<script>x</script>"` raw `<` and `>` characters reach the composed
prompt. -/
theorem trish_prompt_unsanitized_cex :
    hasAngle ((TrishBackend.chat [] "<script>x</script>" [] (fun _ => none)).system_prompt)
      = true := by decide

/-- Claim C5 (amended): in the `src/app.py` variant, `sanitize_input`
(strip, then HTML-escape) is applied to the title before interpolation in
both facilitation and conclusion modes, so for every title no raw `<` or
`>` character reaches the composed prompt; the TRISH-Backend variant
interpolates the raw topic with no sanitization. -/
theorem src_prompt_sanitized :
    ∀ (system_prompt : Bool) (ctx : String) (T : ℚ) (M : ℕ) (p : SrcApp.ProviderResult),
      hasAngle (SrcApp.get_ai_response system_prompt ctx T M p).final_prompt = false := by
  intro sp ctx T M p
  have h1 : hasAngle (SrcApp.sanitize_input ctx) = false := hasAngle_sanitize ctx
  cases sp with
  | false =>
    have h : (SrcApp.get_ai_response false ctx T M p).final_prompt =
        SrcApp.facilitation_prompt (SrcApp.sanitize_input ctx) := rfl
    rw [h, SrcApp.facilitation_prompt]
    exact hasAngle_append3 _ _ _ (by decide) h1 (by decide)
  | true =>
    have h : (SrcApp.get_ai_response true ctx T M p).final_prompt =
        SrcApp.conclusion_prompt (SrcApp.sanitize_input ctx) := rfl
    rw [h, SrcApp.conclusion_prompt]
    exact hasAngle_append3 _ _ _ (by decide) h1 (by decide)

/-- Counterexample to claim C6: the TRISH-Backend `generate_conclusion`
endpoint has no transcript-length gate — a 2-message transcript is not
rejected with 400; the provider is called and (when a credential succeeds)
the request is answered `200`. -/
theorem trish_conclusion_no_gate_cex :
    (TrishBackend.generate_conclusion [⟨"user", "a"⟩, ⟨"user", "b"⟩] "t" [some "k"]
        (fun _ => some "ok")).provider_called = true ∧
      (TrishBackend.generate_conclusion [⟨"user", "a"⟩, ⟨"user", "b"⟩] "t" [some "k"]
        (fun _ => some "ok")).status = 200 := by decide

/-- Claim C6 (amended): in the `src/app.py` variant a valid conclusion
request with fewer than 3 messages is rejected with 400
("Not enough discussion content to generate conclusion") before any
provider call, and a 3-message transcript proceeds to the provider; the
TRISH-Backend variant performs no minimum-length check and always calls the
provider. -/
theorem conclusion_min_transcript :
    (∀ (req : SrcApp.ConclusionRequest) (T : ℚ) (M : ℕ) (p : SrcApp.ProviderResult),
      SrcApp.conclusionRequestValid req = true → req.messages.length < 3 →
      SrcApp.generate_conclusion req T M p =
        { status := 400, retry := some false, conclusion := none
          error := some "Not enough discussion content to generate conclusion"
          provider_called := false }) ∧
    (∀ (req : SrcApp.ConclusionRequest) (T : ℚ) (M : ℕ) (p : SrcApp.ProviderResult),
      SrcApp.conclusionRequestValid req = true → req.messages.length = 3 →
      (SrcApp.generate_conclusion req T M p).provider_called = true) ∧
    (∀ (msgs : List Message) (topic : String) (keys : List (Option String))
        (oracle : String → Option String),
      (TrishBackend.generate_conclusion msgs topic keys oracle).provider_called = true) := by
  refine ⟨?_, ?_, ?_⟩
  · intro req T M p hv hlen
    simp [SrcApp.generate_conclusion, hv, hlen]
  · intro req T M p hv hlen
    have hnl : ¬ (req.messages.length < 3) := by omega
    by_cases hc : SrcApp.conclusionCheck
        (SrcApp.get_ai_response true req.discussionTitle T M p).content = true
    · simp [SrcApp.generate_conclusion, hv, hnl, hc]
    · have hc2 : SrcApp.conclusionCheck
          (SrcApp.get_ai_response true req.discussionTitle T M p).content = false := by
        simpa using hc
      simp [SrcApp.generate_conclusion, hv, hnl, hc2]
  · intro msgs topic keys oracle
    cases hb : TrishBackend.pyTruthy (TrishBackend.get_trish_response keys oracle) <;>
      simp [TrishBackend.generate_conclusion, hb]

/-- Witness for C6 (amended) at a concrete 2-message request. -/
theorem conclusion_min_transcript_witness :
    SrcApp.generate_conclusion
      { messages := [⟨"user", "a"⟩, ⟨"user", "b"⟩], discussionTitle := "Budget"
        user_id := none, focus_areas := none }
      SrcApp.TEMPERATURE_default SrcApp.MAX_TOKENS_default SrcApp.ProviderResult.httpError =
    { status := 400, retry := some false, conclusion := none
      error := some "Not enough discussion content to generate conclusion"
      provider_called := false } :=
  conclusion_min_transcript.1
    { messages := [⟨"user", "a"⟩, ⟨"user", "b"⟩], discussionTitle := "Budget"
      user_id := none, focus_areas := none }
    SrcApp.TEMPERATURE_default SrcApp.MAX_TOKENS_default SrcApp.ProviderResult.httpError
    (by decide) (by decide)

/-- Counterexample to claim C7: in the TRISH-Backend variant `try_api_key`
builds one fixed payload (temperature 0.7, max_tokens 1000) used by both
endpoints, so conclusion mode does not use a strictly lower temperature or
a strictly higher token budget than facilitation mode. -/
theorem trish_params_mode_independent_cex :
    TrishBackend.try_api_key_temperature = 7/10 ∧
      TrishBackend.try_api_key_max_tokens = 1000 ∧
      ¬ (TrishBackend.try_api_key_temperature < TrishBackend.try_api_key_temperature) ∧
      ¬ (TrishBackend.try_api_key_max_tokens < TrishBackend.try_api_key_max_tokens) :=
  ⟨rfl, rfl, lt_irrefl _, lt_irrefl _⟩

/-- Claim C7 (amended): in the `src/app.py` variant under the default
configuration, conclusion mode uses a strictly lower temperature
(0.3 < 0.7) and a strictly higher max-token budget (1200 > 800) than
facilitation mode; the TRISH-Backend variant uses the same fixed
parameters (0.7, 1000) for both endpoints. -/
theorem generation_params_defaults :
    (∀ (ctx : String) (p : SrcApp.ProviderResult),
      (SrcApp.get_ai_response true ctx SrcApp.TEMPERATURE_default
          SrcApp.MAX_TOKENS_default p).temperature <
        (SrcApp.get_ai_response false ctx SrcApp.TEMPERATURE_default
          SrcApp.MAX_TOKENS_default p).temperature ∧
      (SrcApp.get_ai_response false ctx SrcApp.TEMPERATURE_default
          SrcApp.MAX_TOKENS_default p).max_tokens <
        (SrcApp.get_ai_response true ctx SrcApp.TEMPERATURE_default
          SrcApp.MAX_TOKENS_default p).max_tokens) ∧
    TrishBackend.try_api_key_temperature = 7/10 ∧
      TrishBackend.try_api_key_max_tokens = 1000 := by
  refine ⟨?_, rfl, rfl⟩
  intro ctx p
  constructor
  · show (3 : ℚ)/10 < SrcApp.TEMPERATURE_default
    rw [SrcApp.TEMPERATURE_default]
    norm_num
  · show SrcApp.MAX_TOKENS_default < 1200
    rw [SrcApp.MAX_TOKENS_default]
    norm_num

/-- Counterexample to claim C8: the `src/app.py` `chat` endpoint answers a
provider failure with HTTP 200 whose body is an apology sentence, not with
a 503/500 error payload. -/
theorem src_chat_apology_200_cex :
    SrcApp.chat { messages := [⟨"user", "hi"⟩], discussionTitle := "Budget", user_id := none }
      SrcApp.TEMPERATURE_default SrcApp.MAX_TOKENS_default SrcApp.ProviderResult.httpError =
    { status := 200
      response :=
        some "Our AI service is currently experiencing high demand. Please try again in a moment."
      error := none } := by decide

/-- Claim C8 (amended): in the TRISH-Backend variant, when every usable
credential fails, `POST /api/chat` answers 503 with an error payload and no
success body; the `src/app.py` variant instead converts provider failure
into a fallback apology sentence returned in a 200 success response. -/
theorem chat_provider_exhausted :
    (∀ (msgs : List Message) (topic : String) (keys : List (Option String))
        (oracle : String → Option String),
      (∀ s ∈ TrishBackend.usableOf keys, oracle s = none ∨ oracle s = some "") →
      TrishBackend.chat msgs topic keys oracle =
        { status := 503, response := none
          error := some "All AI services are currently unavailable"
          system_prompt := TrishBackend.chat_system_prompt topic }) ∧
    (∀ (req : SrcApp.ChatRequest) (T : ℚ) (M : ℕ),
      SrcApp.chatRequestValid req = true →
      (SrcApp.chat req T M SrcApp.ProviderResult.httpError).status = 200 ∧
      (SrcApp.chat req T M SrcApp.ProviderResult.httpError).response =
        some "Our AI service is currently experiencing high demand. Please try again in a moment.") := by
  constructor
  · intro msgs topic keys oracle h
    have hnone : TrishBackend.get_trish_response keys oracle = none := by
      rw [TrishBackend.get_trish_response, TrishBackend.trace_all_fail keys oracle h]
    simp [TrishBackend.chat, hnone, TrishBackend.pyTruthy]
  · intro req T M hv
    constructor <;> simp [SrcApp.chat, hv, SrcApp.get_ai_response]

/-- Witness for C8 (amended) at a concrete pool whose only credential
fails, and a concrete valid request for the src variant. -/
theorem chat_provider_exhausted_witness :
    TrishBackend.chat [] "t" [some "k"] (fun _ => none) =
      { status := 503, response := none
        error := some "All AI services are currently unavailable"
        system_prompt := TrishBackend.chat_system_prompt "t" } :=
  chat_provider_exhausted.1 [] "t" [some "k"] (fun _ => none) (by decide)

/-- Counterexample to claim C9: `available_keys` counts pool entries that
are merely set (`is not None`) — a credential configured as the empty
string is counted, although it is not a usable non-empty credential (the
gateway skips it). -/
theorem available_keys_counts_empty_cex :
    (TrishBackend.health_check [some "", none]).available_keys = 1 ∧
      claimC9_nonempty_count [some "", none] = 0 := by decide

/-- Claim C9 (amended): the health endpoint's `available_keys` equals the
number of configured (present) credentials, counting empty-string
credentials as well; it is an upper bound on the number of non-empty
credentials the gateway can actually use. -/
theorem available_keys_present_count :
    ∀ keys : List (Option String),
      (TrishBackend.health_check keys).available_keys = keys.countP (fun k => k.isSome) ∧
        claimC9_nonempty_count keys ≤ (TrishBackend.health_check keys).available_keys :=
  fun keys => ⟨available_keys_eq_countP keys, claimC9_le_available keys⟩

/-- Claim C10: when the same `'## <name>'` header occurs more than once,
`parse_conclusion` maps that name to exactly the bullets following its last
occurrence (earlier bullets are discarded), the section order is the order
of first occurrences of the header names, and — because each line is
stripped before matching — indented headers and bullets are still
recognized. -/
theorem parse_duplicate_header_last_wins :
    (∀ (u v : List String) (h : String) (n : String),
      TrishBackend.isHeaderFor n h = true →
      (∃ l ∈ u, TrishBackend.isHeaderFor n l = true) →
      (∀ l ∈ v, TrishBackend.isHeaderFor n l = false) →
      TrishBackend.dictGet (TrishBackend.parseLines (u ++ h :: v)).sections n =
          some (TrishBackend.segBullets v) ∧
        TrishBackend.dictKeys (TrishBackend.parseLines (u ++ h :: v)).sections =
          TrishBackend.dedupFirst (TrishBackend.headerNames (u ++ h :: v))) ∧
    TrishBackend.parse_conclusion "   ## A\n  - x" = [("A", ["x"])] := by
  constructor
  · intro u v h n hh _hdup hv
    have hh2 : TrishBackend.isHeaderLine h = true ∧ TrishBackend.headerNameOf h = n := by
      simpa [TrishBackend.isHeaderFor, Bool.and_eq_true] using hh
    obtain ⟨hhl, hname⟩ := hh2
    have hn : n ≠ "" := hname ▸ TrishBackend.headerNameOf_ne_empty h hhl
    constructor
    · rw [TrishBackend.parseLines, List.foldl_append, List.foldl_cons,
        TrishBackend.parseStep_header _ h hhl, hname]
      have := TrishBackend.foldl_parse_collect v
        { sections := TrishBackend.dictSet
            ((u.foldl TrishBackend.parseStep
              { sections := [], current := none }).sections) n []
          current := some n } n [] rfl hn
        (TrishBackend.dictGet_dictSet_self _ n []) hv
      simpa using this
    · have := TrishBackend.foldl_parse_keys (u ++ h :: v) { sections := [], current := none }
      simpa [TrishBackend.parseLines, TrishBackend.dictKeys, TrishBackend.dedupFirst]
        using this
  · decide

/-- Witness for C10 at a concrete text with a duplicated header. -/
theorem parse_duplicate_header_last_wins_witness :
    TrishBackend.dictGet
        (TrishBackend.parseLines (["## A", "- x"] ++ "## A" :: ["- y"])).sections "A" =
        some (TrishBackend.segBullets ["- y"]) ∧
      TrishBackend.dictKeys
        (TrishBackend.parseLines (["## A", "- x"] ++ "## A" :: ["- y"])).sections =
        TrishBackend.dedupFirst
          (TrishBackend.headerNames (["## A", "- x"] ++ "## A" :: ["- y"])) :=
  parse_duplicate_header_last_wins.1 ["## A", "- x"] ["- y"] "## A" "A"
    (by decide) (by decide) (by decide)
